import Mathlib

/-!
Verification of the `FlickerDistribution` per-cell timing/state model
(`src/js/flicker-distribution.js`).

JavaScript numbers are modelled as real numbers.  The two IEEE-754 special
values that actually arise in this program are modelled explicitly:
`calculateStopTime` can return `Infinity` (border cells) and, because the
code clamps the normalized distance only from above, `Math.pow` can receive
a negative base with exponent 2.5, which yields `NaN` in JavaScript and
propagates through the remaining arithmetic.  The result type `JsTime`
carries both special values; the comparison `currentTime >= t` is false for
both, exactly as in IEEE-754 semantics.

`Math.random()` draws are passed in explicitly (one `RandDraw` per cell),
so every theorem quantifies over the random initialization.
-/

open Classical

/-- Grid geometry fixed at construction (`constructor(width, height, centerX, centerY)`). -/
structure Config where
  width : ℕ
  height : ℕ
  centerX : ℝ
  centerY : ℝ

/-- `this.totalDuration = 10000`. -/
def totalDuration : ℝ := 10000

/-- `this.fadeOutDuration = 2000`. -/
def fadeOutDuration : ℝ := 2000

/-- `this.irregularityFactor = 0.3`. -/
def irregularityFactor : ℝ := 0.3

/-- `this.contagionStrength = 0.1`. -/
def contagionStrength : ℝ := 0.1

/-- `this.naturalVariation = 0.2`. -/
def naturalVariation : ℝ := 0.2

/-- `this.borderThickness = 10` (used only in integer comparisons with cell coordinates). -/
def borderThickness : ℤ := 10

/-- Value of `calculateStopTime`: an ordinary number, `Infinity`, or `NaN`. -/
inductive JsTime where
  | fin (t : ℝ)
  | inf
  | nan

/-- `currentTime >= t` for a `JsTime` threshold: false against `Infinity` and
against `NaN`, as in IEEE-754. -/
def jsGe (currentTime : ℝ) : JsTime → Prop
  | .fin s => s ≤ currentTime
  | .inf => False
  | .nan => False

/-- `perlinNoise(x, y)`: the three-wave sine/cosine pseudo-noise of the source. -/
noncomputable def perlinNoise (x y : ℝ) : ℝ :=
  (Real.sin (x * 0.5) * Real.cos (y * 0.3) * 0.5 +
      Real.sin (x * 1.2) * Real.cos (y * 0.8) * 0.3 +
      Real.sin (x * 2.1) * Real.cos (y * 1.7) * 0.2) / 3

/-- The border test at the top of `calculateStopTime`. -/
def isEdgePixel (c : Config) (x y : ℕ) : Bool :=
  decide ((x : ℤ) < borderThickness) ||
    decide ((c.width : ℤ) - borderThickness ≤ (x : ℤ)) ||
    decide ((y : ℤ) < borderThickness) ||
    decide ((c.height : ℤ) - borderThickness ≤ (y : ℤ))

/-- `baseDistance`: Euclidean distance from the cell to the center. -/
noncomputable def baseDistance (c : Config) (x y : ℕ) : ℝ :=
  Real.sqrt ((x - c.centerX) ^ 2 + (y - c.centerY) ^ 2)

/-- `irregularDistance = baseDistance + noiseValue * irregularityFactor * 100`
with `noiseValue = perlinNoise(x * 0.02, y * 0.02)`. -/
noncomputable def irregularDistance (c : Config) (x y : ℕ) : ℝ :=
  baseDistance c x y + perlinNoise ((x : ℝ) * 0.02) ((y : ℝ) * 0.02) * irregularityFactor * 100

/-- `maxDistance = sqrt(width^2 + height^2) / 2`. -/
noncomputable def maxDistance (c : Config) : ℝ :=
  Real.sqrt ((c.width : ℝ) ^ 2 + (c.height : ℝ) ^ 2) / 2

/-- `normalizedDistance = Math.min(irregularDistance / maxDistance, 1)`.
Note the source clamps only from above. -/
noncomputable def normalizedDistance (c : Config) (x y : ℕ) : ℝ :=
  min (irregularDistance c x y / maxDistance c) 1

/-- `Math.pow(x, 2.5)`: `NaN` (modelled as `none`) for a negative base,
otherwise the real power. -/
noncomputable def mathPow25 (x : ℝ) : Option ℝ :=
  if x < 0 then none else some (x ^ (2.5 : ℝ))

/-- The finite value produced by the tail of `calculateStopTime` when
`Math.pow` returned the ordinary number `e`:
`Math.max(0, Math.min(totalDuration, (e + variation) * totalDuration))`. -/
noncomputable def clampStopTime (e rand : ℝ) : ℝ :=
  max 0 (min totalDuration ((e + (rand - 0.5) * naturalVariation) * totalDuration))

/-- `calculateStopTime(x, y)`.  `rand` is the `Math.random()` draw used for the
natural variation.  Border cells get `Infinity`; a negative normalized
distance makes `Math.pow` return `NaN`, which survives the final
`Math.min`/`Math.max`. -/
noncomputable def calculateStopTime (c : Config) (x y : ℕ) (rand : ℝ) : JsTime :=
  if isEdgePixel c x y then .inf
  else
    match mathPow25 (normalizedDistance c x y) with
    | none => .nan
    | some e => .fin (clampStopTime e rand)

/-- One cell's mutable state (`this.pixels[y][x]`). -/
@[ext]
structure Pixel where
  isFlickering : Bool
  flickerRate : ℝ
  transparency : ℝ
  stopTime : JsTime
  lastFlickerTime : ℝ
  currentColor : ℕ
  hasStartedFading : Bool
  fadeStartTime : ℝ

/-- The three `Math.random()` draws spent on one cell at initialization. -/
structure RandDraw where
  rate : ℝ
  colorDraw : ℝ
  jitter : ℝ

/-- The pixel record built for cell `(x, y)` in `initializePixels`. -/
noncomputable def initPixel (c : Config) (x y : ℕ) (r : RandDraw) : Pixel where
  isFlickering := true
  flickerRate := 50 + r.rate * 100
  transparency := 1
  stopTime := calculateStopTime c x y r.jitter
  lastFlickerTime := 0
  currentColor := if r.colorDraw > 0.5 then 1 else 0
  hasStartedFading := false
  fadeStartTime := 0

/-- The grid `this.pixels`, addressed as `g y x` like `pixels[y][x]`. -/
def Grid : Type := ℕ → ℕ → Pixel

/-- `initializePixels()` (also the body of `reset()`): every cell gets a fresh
`initPixel` from its own random draws. -/
noncomputable def initializePixels (c : Config) (R : ℕ → ℕ → RandDraw) : Grid :=
  fun j i => initPixel c i j (R i j)

/-- The eight `(dx, dy)` offsets visited by the 3×3 loop of
`getNeighborInfluence` (the center is skipped by `continue`). -/
def neighborOffsets : List (ℤ × ℤ) :=
  [(-1, -1), (0, -1), (1, -1), (-1, 0), (1, 0), (-1, 1), (0, 1), (1, 1)]

/-- The bounds check `nx >= 0 && nx < width && ny >= 0 && ny < height`. -/
def inBoundsZ (c : Config) (nx ny : ℤ) : Bool :=
  decide (0 ≤ nx) && decide (nx < (c.width : ℤ)) &&
    decide (0 ≤ ny) && decide (ny < (c.height : ℤ))

/-- The eight neighbor coordinates `(x + dx, y + dy)` visited by the loop. -/
def neighborCells (x y : ℕ) : List (ℤ × ℤ) :=
  neighborOffsets.map fun d => ((x : ℤ) + d.1, (y : ℤ) + d.2)

/-- `totalNeighbors`: how many visited neighbors pass the bounds check. -/
def totalNeighbors (c : Config) (x y : ℕ) : ℕ :=
  (neighborCells x y).countP fun q => inBoundsZ c q.1 q.2

/-- `stoppedNeighbors`: how many in-bounds neighbors have `isFlickering` false. -/
def stoppedNeighbors (c : Config) (g : Grid) (x y : ℕ) : ℕ :=
  (neighborCells x y).countP fun q =>
    inBoundsZ c q.1 q.2 && !(g q.2.toNat q.1.toNat).isFlickering

/-- `getNeighborInfluence(x, y)`: fraction of in-bounds neighbors whose
`isFlickering` is false (0 when there are no in-bounds neighbors). -/
noncomputable def getNeighborInfluence (c : Config) (g : Grid) (x y : ℕ) : ℝ :=
  if 0 < totalNeighbors c x y then
    (stoppedNeighbors c g x y : ℝ) / (totalNeighbors c x y : ℝ)
  else 0

/-- The neighbor-adjusted threshold of `updatePixel`:
`adjustedStopTime = stopTime - influence * contagionStrength * 2000`
(`Infinity` and `NaN` absorb the subtraction, as in IEEE-754). -/
def adjustedStopTime (st : JsTime) (influence : ℝ) : JsTime :=
  match st with
  | .fin s => .fin (s - influence * contagionStrength * 2000)
  | .inf => .inf
  | .nan => .nan

/-- Step 1 of `updatePixel`: stop flickering once `currentTime` reaches the
neighbor-adjusted threshold. -/
noncomputable def stepStop (influence t : ℝ) (p : Pixel) : Pixel :=
  if p.isFlickering = true ∧ jsGe t (adjustedStopTime p.stopTime influence) then
    { p with isFlickering := false, hasStartedFading := true, fadeStartTime := t }
  else p

/-- Step 2 of `updatePixel`: toggle the color when the cell's personal flicker
interval has elapsed. -/
noncomputable def stepToggle (t : ℝ) (p : Pixel) : Pixel :=
  if p.isFlickering = true ∧ p.flickerRate ≤ t - p.lastFlickerTime then
    { p with currentColor := 1 - p.currentColor, lastFlickerTime := t }
  else p

/-- Step 3 of `updatePixel`: recompute the fade transparency
`max(0, 1 - (currentTime - fadeStartTime) / fadeOutDuration)`. -/
noncomputable def stepFade (t : ℝ) (p : Pixel) : Pixel :=
  if p.hasStartedFading = true ∧ p.isFlickering = false then
    { p with transparency := max 0 (1 - (t - p.fadeStartTime) / fadeOutDuration) }
  else p

/-- The whole body of `updatePixel` on one pixel record, with the neighbor
influence passed in (it is read from the grid before the pixel is written). -/
noncomputable def updatePixelCore (influence t : ℝ) (p : Pixel) : Pixel :=
  stepFade t (stepToggle t (stepStop influence t p))

/-- `updatePixel(x, y, currentTime)`: the updated record of cell `(x, y)`. -/
noncomputable def updatePixel (c : Config) (g : Grid) (x y : ℕ) (t : ℝ) : Pixel :=
  updatePixelCore (getNeighborInfluence c g x y) t (g y x)

/-- Writing one cell of the grid (the in-place mutation of `this.pixels[y][x]`). -/
def setPixel (g : Grid) (x y : ℕ) (p : Pixel) : Grid :=
  fun j i => if j = y ∧ i = x then p else g j i

/-- The `{color, transparency, isActive}` record returned by `getPixelState`. -/
structure PixelView where
  color : ℕ
  transparency : ℝ
  isActive : Bool

/-- `getPixelState(x, y, currentTime)`: runs `updatePixel`, persists the
mutated cell, and reports `isActive = isFlickering || transparency > 0`. -/
noncomputable def getPixelState (c : Config) (g : Grid) (x y : ℕ) (t : ℝ) :
    PixelView × Grid :=
  let p := updatePixel c g x y t
  (⟨p.currentColor, p.transparency, p.isFlickering || decide (p.transparency > 0)⟩,
    setPixel g x y p)

/-- `isEffectComplete(currentTime)`. -/
def isEffectComplete (t : ℝ) : Prop := totalDuration + fadeOutDuration ≤ t

/-- `getProgress(currentTime) = Math.min(100, (currentTime / totalTime) * 100)`
with `totalTime = totalDuration + fadeOutDuration`. -/
noncomputable def getProgress (t : ℝ) : ℝ :=
  min 100 (t / (totalDuration + fadeOutDuration) * 100)

/-- A sequence of `updatePixel` calls on one cell: each entry supplies the
neighbor influence read from the surrounding grid and the elapsed time. -/
noncomputable def runPixel (p : Pixel) (L : List (ℝ × ℝ)) : Pixel :=
  L.foldl (fun q it => updatePixelCore it.1 it.2 q) p

/-- A sequence of `getPixelState` calls on the whole field; each entry is
`(x, y, elapsedMs)`. -/
noncomputable def runGrid (c : Config) (g : Grid) (Q : List (ℕ × ℕ × ℝ)) : Grid :=
  Q.foldl (fun h q => (getPixelState c h q.1 q.2.1 q.2.2).2) g

/-- Claim C8: `getProgress` is `min(100, 100·t/(totalDuration+fadeOutDuration))`,
lies in `[0, 100]` for nonnegative elapsed times, is `0` at `0`, `100` at
`totalDuration + fadeOutDuration = 12000`, and is non-decreasing. -/
theorem flicker_C8 (t : ℝ) :
    getProgress t = min 100 (100 * t / (totalDuration + fadeOutDuration)) ∧
    getProgress t ≤ 100 ∧
    (0 ≤ t → 0 ≤ getProgress t) ∧
    getProgress 0 = 0 ∧
    getProgress (totalDuration + fadeOutDuration) = 100 ∧
    (∀ s, t ≤ s → getProgress t ≤ getProgress s) := by
  refine ⟨?_, ?_, ?_, ?_, ?_, ?_⟩
  · unfold getProgress
    ring_nf
  · exact min_le_left _ _
  · intro ht
    unfold getProgress totalDuration fadeOutDuration
    positivity
  · unfold getProgress totalDuration fadeOutDuration
    norm_num
  · unfold getProgress totalDuration fadeOutDuration
    norm_num
  · intro s hs
    unfold getProgress totalDuration fadeOutDuration
    apply min_le_min le_rfl
    have h1 : t / (10000 + 2000 : ℝ) * 100 = t * (100 / 12000) := by ring
    have h2 : s / (10000 + 2000 : ℝ) * 100 = s * (100 / 12000) := by ring
    rw [h1, h2]
    exact mul_le_mul_of_nonneg_right hs (by norm_num)

/-- Witness for C8 at concrete times. -/
theorem flicker_C8_witness :
    (getProgress 3 = min 100 (100 * 3 / (totalDuration + fadeOutDuration)) ∧
      getProgress 3 ≤ 100 ∧
      (0 ≤ (3:ℝ) → 0 ≤ getProgress 3) ∧
      getProgress 0 = 0 ∧
      getProgress (totalDuration + fadeOutDuration) = 100 ∧
      (∀ s, (3:ℝ) ≤ s → getProgress 3 ≤ getProgress s)) ∧
    0 ≤ getProgress 3 ∧ getProgress 3 ≤ getProgress 5 := by
  have h := flicker_C8 3
  exact ⟨h, h.2.2.1 (by norm_num), h.2.2.2.2.2 5 (by norm_num)⟩

/-- The 100×100 grid with center `(50, 50)` used by the spec's scenarios. -/
noncomputable def c100 : Config := ⟨100, 100, 50, 50⟩

/-- A 436×21 grid whose center `(425, 10)` sits on an interior cell where the
noise field is negative: the configuration exhibiting the missing lower
clamp of the normalized distance. -/
noncomputable def c436 : Config := ⟨436, 21, 425, 10⟩

lemma stepStop_stopTime (i t : ℝ) (p : Pixel) : (stepStop i t p).stopTime = p.stopTime := by
  unfold stepStop; split <;> rfl

lemma stepToggle_stopTime (t : ℝ) (p : Pixel) : (stepToggle t p).stopTime = p.stopTime := by
  unfold stepToggle; split <;> rfl

lemma stepFade_stopTime (t : ℝ) (p : Pixel) : (stepFade t p).stopTime = p.stopTime := by
  unfold stepFade; split <;> rfl

lemma core_stopTime (i t : ℝ) (p : Pixel) :
    (updatePixelCore i t p).stopTime = p.stopTime := by
  unfold updatePixelCore
  rw [stepFade_stopTime, stepToggle_stopTime, stepStop_stopTime]

lemma stepToggle_isFlickering (t : ℝ) (p : Pixel) :
    (stepToggle t p).isFlickering = p.isFlickering := by
  unfold stepToggle; split <;> rfl

lemma stepFade_isFlickering (t : ℝ) (p : Pixel) :
    (stepFade t p).isFlickering = p.isFlickering := by
  unfold stepFade; split <;> rfl

lemma stepToggle_flickerRate (t : ℝ) (p : Pixel) :
    (stepToggle t p).flickerRate = p.flickerRate := by
  unfold stepToggle; split <;> rfl

lemma stepStop_flickerRate (i t : ℝ) (p : Pixel) :
    (stepStop i t p).flickerRate = p.flickerRate := by
  unfold stepStop; split <;> rfl

lemma stepFade_flickerRate (t : ℝ) (p : Pixel) :
    (stepFade t p).flickerRate = p.flickerRate := by
  unfold stepFade; split <;> rfl

lemma core_flickerRate (i t : ℝ) (p : Pixel) :
    (updatePixelCore i t p).flickerRate = p.flickerRate := by
  unfold updatePixelCore
  rw [stepFade_flickerRate, stepToggle_flickerRate, stepStop_flickerRate]

/-- A pixel whose scheduled stop time is `Infinity` never leaves the
flickering state: the adjusted threshold stays `Infinity` and the
comparison `currentTime >= Infinity` is false. -/
lemma core_inf_keeps_flickering (i t : ℝ) (p : Pixel)
    (h1 : p.stopTime = .inf) (h2 : p.isFlickering = true) :
    (updatePixelCore i t p).isFlickering = true ∧
      (updatePixelCore i t p).stopTime = .inf := by
  have hstop : stepStop i t p = p := by
    unfold stepStop
    rw [if_neg]
    rintro ⟨-, hge⟩
    rw [h1] at hge
    exact hge
  refine ⟨?_, ?_⟩
  · unfold updatePixelCore
    rw [stepFade_isFlickering, stepToggle_isFlickering, hstop, h2]
  · rw [core_stopTime, h1]

/-- Any sequence of `getPixelState` calls (on any cells) preserves the pair
"stop time is `Infinity` and still flickering" at a fixed cell. -/
lemma runGrid_inf_invariant (c : Config) (Q : List (ℕ × ℕ × ℝ)) :
    ∀ g : Grid, ∀ x y : ℕ,
      (g y x).stopTime = .inf → (g y x).isFlickering = true →
      ((runGrid c g Q) y x).stopTime = .inf ∧
        ((runGrid c g Q) y x).isFlickering = true := by
  induction Q with
  | nil => exact fun g x y h1 h2 => ⟨h1, h2⟩
  | cons q Q ih =>
    intro g x y h1 h2
    have hrw : runGrid c g (q :: Q) = runGrid c ((getPixelState c g q.1 q.2.1 q.2.2).2) Q := rfl
    rw [hrw]
    by_cases hc : y = q.2.1 ∧ x = q.1
    · obtain ⟨hy, hx⟩ := hc
      have hread : (getPixelState c g q.1 q.2.1 q.2.2).2 y x =
          updatePixelCore (getNeighborInfluence c g q.1 q.2.1) q.2.2 (g q.2.1 q.1) := by
        show setPixel g q.1 q.2.1 _ y x = _
        unfold setPixel
        rw [if_pos ⟨hy, hx⟩]
        rfl
      have h1' : (g q.2.1 q.1).stopTime = .inf := by rw [← hy, ← hx]; exact h1
      have h2' : (g q.2.1 q.1).isFlickering = true := by rw [← hy, ← hx]; exact h2
      have hk := core_inf_keeps_flickering (getNeighborInfluence c g q.1 q.2.1)
        q.2.2 (g q.2.1 q.1) h1' h2'
      exact ih _ x y (by rw [hread]; exact hk.2) (by rw [hread]; exact hk.1)
    · have hread : (getPixelState c g q.1 q.2.1 q.2.2).2 y x = g y x := by
        show setPixel g q.1 q.2.1 _ y x = _
        unfold setPixel
        rw [if_neg hc]
      exact ih _ x y (by rw [hread]; exact h1) (by rw [hread]; exact h2)

/-- Claim C1: a cell within `borderThickness` of any edge gets stop time
`Infinity` from `calculateStopTime`, and through any finite sequence of
`getPixelState` calls on the field (the neighbor/contagion adjustment
included) it keeps `isFlickering = true`. -/
theorem flicker_C1 (c : Config) (x y : ℕ) (R : ℕ → ℕ → RandDraw)
    (Q : List (ℕ × ℕ × ℝ)) (h : isEdgePixel c x y = true) :
    calculateStopTime c x y (R x y).jitter = .inf ∧
      ((runGrid c (initializePixels c R) Q) y x).isFlickering = true := by
  have hstop : calculateStopTime c x y (R x y).jitter = .inf := by
    unfold calculateStopTime
    rw [if_pos h]
  refine ⟨hstop, ?_⟩
  have hinit : (initializePixels c R) y x = initPixel c x y (R x y) := rfl
  exact (runGrid_inf_invariant c Q (initializePixels c R) x y
    (by rw [hinit]; exact hstop) (by rw [hinit]; rfl)).2

/-- Witness for C1: the corner cell `(0, 0)` of the 100×100 grid, queried at
`elapsedMs = 12000`, still flickers and has stop time `Infinity`. -/
theorem flicker_C1_witness :
    isEdgePixel c100 0 0 = true ∧
    (calculateStopTime c100 0 0 ((fun _ _ => RandDraw.mk 0.5 0.5 0.5) 0 0).jitter = .inf ∧
      ((runGrid c100 (initializePixels c100 (fun _ _ => RandDraw.mk 0.5 0.5 0.5))
        [(0, 0, 12000)]) 0 0).isFlickering = true) :=
  ⟨by decide, flicker_C1 c100 0 0 (fun _ _ => RandDraw.mk 0.5 0.5 0.5) [(0, 0, 12000)] (by decide)⟩

lemma stoppedNeighbors_le_total (c : Config) (g : Grid) (x y : ℕ) :
    stoppedNeighbors c g x y ≤ totalNeighbors c x y := by
  unfold stoppedNeighbors totalNeighbors
  apply List.countP_mono_left
  intro a _ h
  exact ((Bool.and_eq_true _ _).mp h).1

lemma influence_nonneg (c : Config) (g : Grid) (x y : ℕ) :
    0 ≤ getNeighborInfluence c g x y := by
  unfold getNeighborInfluence
  split
  · positivity
  · exact le_refl 0

lemma influence_le_one (c : Config) (g : Grid) (x y : ℕ) :
    getNeighborInfluence c g x y ≤ 1 := by
  unfold getNeighborInfluence
  split
  · rename_i htot
    rw [div_le_one (by exact_mod_cast htot)]
    exact_mod_cast stoppedNeighbors_le_total c g x y
  · exact zero_le_one

lemma totalNeighbors_eq_eight (c : Config) (x y : ℕ)
    (hx1 : 1 ≤ x) (hx2 : x + 1 < c.width) (hy1 : 1 ≤ y) (hy2 : y + 1 < c.height) :
    totalNeighbors c x y = 8 := by
  unfold totalNeighbors
  have hlen : (neighborCells x y).length = 8 := rfl
  rw [← hlen, List.countP_eq_length]
  intro q hq
  simp only [neighborCells, neighborOffsets, List.map_cons, List.map_nil, List.mem_cons,
    List.not_mem_nil, or_false] at hq
  rcases hq with h | h | h | h | h | h | h | h <;> subst h <;>
    · simp only [inBoundsZ, Bool.and_eq_true, decide_eq_true_eq]
      refine ⟨⟨⟨?_, ?_⟩, ?_⟩, ?_⟩ <;> omega

lemma stoppedNeighbors_eq_eight (c : Config) (g : Grid) (x y : ℕ)
    (hx1 : 1 ≤ x) (hx2 : x + 1 < c.width) (hy1 : 1 ≤ y) (hy2 : y + 1 < c.height)
    (hstop : ∀ d ∈ neighborOffsets,
      (g ((y : ℤ) + d.2).toNat ((x : ℤ) + d.1).toNat).isFlickering = false) :
    stoppedNeighbors c g x y = 8 := by
  unfold stoppedNeighbors
  have hlen : (neighborCells x y).length = 8 := rfl
  rw [← hlen, List.countP_eq_length]
  have hb : ∀ d ∈ neighborOffsets,
      inBoundsZ c ((x : ℤ) + d.1) ((y : ℤ) + d.2) = true := by
    intro d hd
    simp only [inBoundsZ, Bool.and_eq_true, decide_eq_true_eq]
    simp only [neighborOffsets, List.mem_cons, List.not_mem_nil, or_false] at hd
    rcases hd with h | h | h | h | h | h | h | h <;> subst h <;>
      exact ⟨⟨⟨by omega, by omega⟩, by omega⟩, by omega⟩
  intro q hq
  simp only [neighborCells, List.mem_map] at hq
  obtain ⟨d, hd, rfl⟩ := hq
  simp only [Bool.and_eq_true, Bool.not_eq_true']
  exact ⟨hb d hd, hstop d hd⟩

/-- When a cell has all eight neighbors in bounds and all of them have stopped
flickering, the neighbor influence is exactly 1. -/
lemma influence_all_stopped (c : Config) (g : Grid) (x y : ℕ)
    (hx1 : 1 ≤ x) (hx2 : x + 1 < c.width) (hy1 : 1 ≤ y) (hy2 : y + 1 < c.height)
    (hstop : ∀ d ∈ neighborOffsets,
      (g ((y : ℤ) + d.2).toNat ((x : ℤ) + d.1).toNat).isFlickering = false) :
    getNeighborInfluence c g x y = 1 := by
  unfold getNeighborInfluence
  rw [totalNeighbors_eq_eight c x y hx1 hx2 hy1 hy2,
    stoppedNeighbors_eq_eight c g x y hx1 hx2 hy1 hy2 hstop]
  norm_num

/-- A still-flickering pixel leaves the flickering state in `updatePixel`
exactly when the elapsed time has reached the neighbor-adjusted threshold. -/
lemma core_stops_iff (i t : ℝ) (p : Pixel) (hf : p.isFlickering = true) :
    ((updatePixelCore i t p).isFlickering = false ↔
      jsGe t (adjustedStopTime p.stopTime i)) := by
  by_cases hge : jsGe t (adjustedStopTime p.stopTime i)
  · simp only [hge, iff_true]
    have h1 : stepStop i t p =
        { p with isFlickering := false, hasStartedFading := true, fadeStartTime := t } := by
      unfold stepStop; rw [if_pos ⟨hf, hge⟩]
    unfold updatePixelCore
    rw [stepFade_isFlickering, stepToggle_isFlickering, h1]
  · simp only [hge, iff_false]
    have h1 : stepStop i t p = p := by
      unfold stepStop; rw [if_neg]; rintro ⟨-, h⟩; exact hge h
    unfold updatePixelCore
    rw [stepFade_isFlickering, stepToggle_isFlickering, h1, hf]
    simp

/-- Claim C4: for a still-flickering cell with finite scheduled stop time `s`,
the effective threshold used by `updatePixel` is exactly
`s - influence * contagionStrength * 2000`; the influence lies in `[0, 1]`,
so the threshold is never later than `s` and never more than
`contagionStrength * 2000` earlier; the cell leaves the flickering state at
time `t` exactly when `t` has reached that threshold; and when all eight
neighbors exist and have `isFlickering = false` the influence is 1, moving
the threshold exactly `contagionStrength * 2000` earlier. -/
theorem flicker_C4 (c : Config) (g : Grid) (x y : ℕ) (s t : ℝ)
    (hs : (g y x).stopTime = .fin s) (hf : (g y x).isFlickering = true) :
    adjustedStopTime (g y x).stopTime (getNeighborInfluence c g x y) =
      .fin (s - getNeighborInfluence c g x y * contagionStrength * 2000) ∧
    0 ≤ getNeighborInfluence c g x y ∧
    getNeighborInfluence c g x y ≤ 1 ∧
    s - contagionStrength * 2000 ≤
      s - getNeighborInfluence c g x y * contagionStrength * 2000 ∧
    s - getNeighborInfluence c g x y * contagionStrength * 2000 ≤ s ∧
    ((updatePixel c g x y t).isFlickering = false ↔
      s - getNeighborInfluence c g x y * contagionStrength * 2000 ≤ t) ∧
    (1 ≤ x → x + 1 < c.width → 1 ≤ y → y + 1 < c.height →
      (∀ d ∈ neighborOffsets,
        (g ((y : ℤ) + d.2).toNat ((x : ℤ) + d.1).toNat).isFlickering = false) →
      getNeighborInfluence c g x y = 1 ∧
        adjustedStopTime (g y x).stopTime (getNeighborInfluence c g x y) =
          .fin (s - contagionStrength * 2000)) := by
  have h0 := influence_nonneg c g x y
  have h1 := influence_le_one c g x y
  have hcs : (0:ℝ) < contagionStrength * 2000 := by
    unfold contagionStrength; norm_num
  refine ⟨by rw [hs]; rfl, h0, h1, ?_, ?_, ?_, ?_⟩
  · nlinarith
  · nlinarith
  · have hiff := core_stops_iff (getNeighborInfluence c g x y) t (g y x) hf
    rw [hs] at hiff
    exact hiff
  · intro hx1 hx2 hy1 hy2 hstop
    have he := influence_all_stopped c g x y hx1 hx2 hy1 hy2 hstop
    rw [he, hs]
    refine ⟨rfl, ?_⟩
    unfold adjustedStopTime
    norm_num

/-- A flickering pixel with scheduled stop time 5000 ms, used as the center of
the concrete contagion scenarios. -/
noncomputable def pixFlick : Pixel :=
  ⟨true, 100, 1, .fin 5000, 0, 1, false, 0⟩

/-- A pixel that has already stopped flickering and started fading. -/
noncomputable def pixStopped : Pixel :=
  ⟨false, 100, 0.5, .fin 5000, 0, 1, true, 0⟩

/-- A grid where only cell `(50, 50)` still flickers; all eight of its
neighbors have stopped. -/
noncomputable def gridC4 : Grid :=
  fun j i => if j = 50 ∧ i = 50 then pixFlick else pixStopped

lemma gridC4_center : gridC4 50 50 = pixFlick := by
  unfold gridC4
  rw [if_pos ⟨rfl, rfl⟩]

lemma gridC4_neighbors_stopped : ∀ d ∈ neighborOffsets,
    (gridC4 ((50 : ℤ) + d.2).toNat ((50 : ℤ) + d.1).toNat).isFlickering = false := by
  intro d hd
  simp only [neighborOffsets, List.mem_cons, List.not_mem_nil, or_false] at hd
  rcases hd with h | h | h | h | h | h | h | h <;> subst h <;>
    · unfold gridC4
      rw [if_neg (by omega)]
      rfl

/-- Witness for C4: the all-stopped-neighbors grid `gridC4` at cell
`(50, 50)`, threshold queried at `t = 12000`. -/
theorem flicker_C4_witness :
    (gridC4 50 50).stopTime = .fin 5000 ∧ (gridC4 50 50).isFlickering = true ∧
    (adjustedStopTime (gridC4 50 50).stopTime (getNeighborInfluence c100 gridC4 50 50) =
        .fin (5000 - getNeighborInfluence c100 gridC4 50 50 * contagionStrength * 2000) ∧
      0 ≤ getNeighborInfluence c100 gridC4 50 50 ∧
      getNeighborInfluence c100 gridC4 50 50 ≤ 1 ∧
      5000 - contagionStrength * 2000 ≤
        5000 - getNeighborInfluence c100 gridC4 50 50 * contagionStrength * 2000 ∧
      5000 - getNeighborInfluence c100 gridC4 50 50 * contagionStrength * 2000 ≤ 5000 ∧
      ((updatePixel c100 gridC4 50 50 12000).isFlickering = false ↔
        5000 - getNeighborInfluence c100 gridC4 50 50 * contagionStrength * 2000 ≤ 12000) ∧
      (1 ≤ 50 → 50 + 1 < c100.width → 1 ≤ 50 → 50 + 1 < c100.height →
        (∀ d ∈ neighborOffsets,
          (gridC4 ((50 : ℤ) + d.2).toNat ((50 : ℤ) + d.1).toNat).isFlickering = false) →
        getNeighborInfluence c100 gridC4 50 50 = 1 ∧
          adjustedStopTime (gridC4 50 50).stopTime (getNeighborInfluence c100 gridC4 50 50) =
            .fin (5000 - contagionStrength * 2000))) := by
  have h1 : (gridC4 50 50).stopTime = .fin 5000 := by rw [gridC4_center]; rfl
  have h2 : (gridC4 50 50).isFlickering = true := by rw [gridC4_center]; rfl
  exact ⟨h1, h2, flicker_C4 c100 gridC4 50 50 5000 12000 h1 h2⟩

/-- Counterexample to C5 as stated: in the maximal-contagion situation (all
eight neighbors stopped) the threshold moves earlier by
`contagionStrength * 2000 = 200` ms, not by 2000 ms. -/
theorem flicker_C5_counterexample :
    getNeighborInfluence c100 gridC4 50 50 = 1 ∧
    adjustedStopTime (gridC4 50 50).stopTime (getNeighborInfluence c100 gridC4 50 50) =
      .fin (5000 - 200) ∧
    ((5000 : ℝ) - 200 ≠ 5000 - 2000) := by
  have he : getNeighborInfluence c100 gridC4 50 50 = 1 :=
    influence_all_stopped c100 gridC4 50 50 (by norm_num)
      (by unfold c100; norm_num) (by norm_num) (by unfold c100; norm_num)
      gridC4_neighbors_stopped
  have h1 : (gridC4 50 50).stopTime = .fin 5000 := by rw [gridC4_center]; rfl
  refine ⟨he, ?_, by norm_num⟩
  rw [h1, he]
  unfold adjustedStopTime contagionStrength
  norm_num

/-- Claim C5 (amended): a cell all of whose eight neighbors have stopped gets
its effective stop threshold pulled earlier by exactly
`contagionStrength * 2000 = 200` milliseconds (not 2000). -/
theorem flicker_C5 (c : Config) (g : Grid) (x y : ℕ) (s : ℝ)
    (hs : (g y x).stopTime = .fin s)
    (hx1 : 1 ≤ x) (hx2 : x + 1 < c.width) (hy1 : 1 ≤ y) (hy2 : y + 1 < c.height)
    (hstop : ∀ d ∈ neighborOffsets,
      (g ((y : ℤ) + d.2).toNat ((x : ℤ) + d.1).toNat).isFlickering = false) :
    adjustedStopTime (g y x).stopTime (getNeighborInfluence c g x y) =
      .fin (s - contagionStrength * 2000) ∧
    contagionStrength * 2000 = 200 := by
  have he := influence_all_stopped c g x y hx1 hx2 hy1 hy2 hstop
  rw [hs, he]
  constructor
  · unfold adjustedStopTime
    norm_num
  · unfold contagionStrength
    norm_num

/-- Witness for the amended C5 on the concrete grid `gridC4`. -/
theorem flicker_C5_witness :
    (gridC4 50 50).stopTime = .fin 5000 ∧
    (adjustedStopTime (gridC4 50 50).stopTime (getNeighborInfluence c100 gridC4 50 50) =
        .fin (5000 - contagionStrength * 2000) ∧
      contagionStrength * 2000 = 200) := by
  have h1 : (gridC4 50 50).stopTime = .fin 5000 := by rw [gridC4_center]; rfl
  exact ⟨h1, flicker_C5 c100 gridC4 50 50 5000 h1 (by norm_num)
    (by unfold c100; norm_num) (by norm_num) (by unfold c100; norm_num)
    gridC4_neighbors_stopped⟩

/-- Claim C9: `getPixelState(x, y, t)` writes back only cell `(x, y)`; every
other cell of the grid is left untouched (neighbors are only read). -/
theorem flicker_C9 (c : Config) (g : Grid) (x y x' y' : ℕ) (t : ℝ)
    (hx : x < c.width) (hy : y < c.height) (hne : ¬(x' = x ∧ y' = y)) :
    (getPixelState c g x y t).2 y' x' = g y' x' := by
  show setPixel g x y _ y' x' = _
  unfold setPixel
  rw [if_neg]
  rintro ⟨h1, h2⟩
  exact hne ⟨h2, h1⟩

/-- Witness for C9: updating cell `(50, 50)` of the concrete grid leaves
cell `(51, 50)` unchanged. -/
theorem flicker_C9_witness :
    50 < c100.width ∧ 50 < c100.height ∧ ¬(51 = 50 ∧ 50 = 50) ∧
    (getPixelState c100 gridC4 50 50 7).2 50 51 = gridC4 50 51 :=
  ⟨by decide, by decide, by omega,
    flicker_C9 c100 gridC4 50 50 51 50 7 (by decide) (by decide) (by omega)⟩

lemma setPixel_center (g : Grid) (x y : ℕ) (p : Pixel) : setPixel g x y p y x = p := by
  unfold setPixel
  rw [if_pos ⟨rfl, rfl⟩]

lemma neighborOffsets_ne_zero : ∀ d ∈ neighborOffsets, ¬(d.1 = 0 ∧ d.2 = 0) := by
  decide

/-- Writing the center cell does not change the neighbor influence at the
center: the 3×3 loop skips the center and reads only in-bounds neighbors. -/
lemma influence_setPixel_center (c : Config) (g : Grid) (x y : ℕ) (p : Pixel) :
    getNeighborInfluence c (setPixel g x y p) x y = getNeighborInfluence c g x y := by
  unfold getNeighborInfluence
  have hstopped : stoppedNeighbors c (setPixel g x y p) x y = stoppedNeighbors c g x y := by
    unfold stoppedNeighbors
    apply List.countP_congr
    intro q hq
    simp only [neighborCells, List.mem_map] at hq
    obtain ⟨d, hd, rfl⟩ := hq
    by_cases hb : inBoundsZ c ((x : ℤ) + d.1) ((y : ℤ) + d.2) = true
    · have hne : ¬(((y : ℤ) + d.2).toNat = y ∧ ((x : ℤ) + d.1).toNat = x) := by
        have hd0 := neighborOffsets_ne_zero d hd
        simp only [inBoundsZ, Bool.and_eq_true, decide_eq_true_eq] at hb
        rintro ⟨h1, h2⟩
        exact hd0 ⟨by omega, by omega⟩
      have : setPixel g x y p ((y : ℤ) + d.2).toNat ((x : ℤ) + d.1).toNat =
          g ((y : ℤ) + d.2).toNat ((x : ℤ) + d.1).toNat := by
        unfold setPixel
        rw [if_neg hne]
      rw [this]
    · have hb' : inBoundsZ c ((x : ℤ) + d.1) ((y : ℤ) + d.2) = false :=
        Bool.not_eq_true _ ▸ (Bool.eq_false_iff.mpr hb)
      rw [hb']
      simp
  rw [hstopped]

lemma stepStop_of_not_flickering (i t : ℝ) (p : Pixel) (h : p.isFlickering = false) :
    stepStop i t p = p := by
  unfold stepStop
  rw [if_neg]
  rintro ⟨h1, -⟩
  rw [h] at h1
  exact Bool.false_ne_true h1

lemma stepToggle_of_not_flickering (t : ℝ) (p : Pixel) (h : p.isFlickering = false) :
    stepToggle t p = p := by
  unfold stepToggle
  rw [if_neg]
  rintro ⟨h1, -⟩
  rw [h] at h1
  exact Bool.false_ne_true h1

lemma stepFade_of_flickering (t : ℝ) (p : Pixel) (h : p.isFlickering = true) :
    stepFade t p = p := by
  unfold stepFade
  rw [if_neg]
  rintro ⟨-, h2⟩
  rw [h] at h2
  exact absurd h2 (by simp)

lemma stepFade_of_not_fading (t : ℝ) (p : Pixel) (h : p.hasStartedFading = false) :
    stepFade t p = p := by
  unfold stepFade
  rw [if_neg]
  rintro ⟨h1, -⟩
  rw [h] at h1
  exact Bool.false_ne_true h1

/-- A pixel that has stopped and whose transparency already equals the fade
value for time `t` is a fixed point of the whole per-pixel update at `t`. -/
lemma core_stable_of_faded (i t : ℝ) (q : Pixel) (hqf : q.isFlickering = false)
    (hqs : q.hasStartedFading = true)
    (htr : q.transparency = max 0 (1 - (t - q.fadeStartTime) / fadeOutDuration)) :
    updatePixelCore i t q = q := by
  unfold updatePixelCore
  rw [stepStop_of_not_flickering i t q hqf, stepToggle_of_not_flickering t q hqf]
  unfold stepFade
  rw [if_pos ⟨hqs, hqf⟩, ← htr]

/-- A still-flickering pixel for which neither the stop condition nor the
toggle condition holds is a fixed point of the per-pixel update. -/
lemma core_stable_of_flickering (i t : ℝ) (q : Pixel) (hqf : q.isFlickering = true)
    (hge : ¬ jsGe t (adjustedStopTime q.stopTime i))
    (htog : ¬ q.flickerRate ≤ t - q.lastFlickerTime) :
    updatePixelCore i t q = q := by
  unfold updatePixelCore
  have h1 : stepStop i t q = q := by
    unfold stepStop; rw [if_neg]; rintro ⟨-, h⟩; exact hge h
  have h2 : stepToggle t q = q := by
    unfold stepToggle; rw [if_neg]; rintro ⟨-, h⟩; exact htog h
  rw [h1, h2, stepFade_of_flickering t q hqf]

/-- Running the whole per-pixel update twice at the same instant (with the
same neighbor influence) is the same as running it once: the stop check and
the fade recomputation are stable, and the toggle cannot fire again because
`t - lastFlickerTime` becomes `0 < flickerRate`. -/
lemma core_idem (i t : ℝ) (p : Pixel) (hr : 0 < p.flickerRate) :
    updatePixelCore i t (updatePixelCore i t p) = updatePixelCore i t p := by
  by_cases hf : p.isFlickering = true
  · by_cases hge : jsGe t (adjustedStopTime p.stopTime i)
    · -- the pixel stops at this instant; the second run only recomputes the
      -- same fade value from the same fadeStartTime = t
      have h1 : stepStop i t p =
          { p with isFlickering := false, hasStartedFading := true, fadeStartTime := t } := by
        unfold stepStop; rw [if_pos ⟨hf, hge⟩]
      have hq : updatePixelCore i t p =
          { p with
              isFlickering := false, hasStartedFading := true, fadeStartTime := t,
              transparency := max 0 (1 - (t - t) / fadeOutDuration) } := by
        unfold updatePixelCore
        rw [h1, stepToggle_of_not_flickering t _ rfl]
        unfold stepFade
        rw [if_pos ⟨rfl, rfl⟩]
      rw [hq]
      exact core_stable_of_faded i t _ rfl rfl rfl
    · by_cases htog : p.flickerRate ≤ t - p.lastFlickerTime
      · -- the toggle fires once; afterwards `t - lastFlickerTime = 0 < rate`
        have h1 : stepStop i t p = p := by
          unfold stepStop; rw [if_neg]; rintro ⟨-, h⟩; exact hge h
        have h2 : stepToggle t p =
            { p with currentColor := 1 - p.currentColor, lastFlickerTime := t } := by
          unfold stepToggle; rw [if_pos ⟨hf, htog⟩]
        have hq : updatePixelCore i t p =
            { p with currentColor := 1 - p.currentColor, lastFlickerTime := t } := by
          unfold updatePixelCore
          rw [h1, h2]
          exact stepFade_of_flickering t _ hf
        rw [hq]
        refine core_stable_of_flickering i t _ hf hge ?_
        intro h
        have h' : p.flickerRate ≤ t - t := h
        linarith
      · have hq : updatePixelCore i t p = p :=
          core_stable_of_flickering i t p hf hge htog
        rw [hq, hq]
  · have hf' : p.isFlickering = false := Bool.eq_false_iff.mpr hf
    by_cases hsf : p.hasStartedFading = true
    · have hq : updatePixelCore i t p =
          { p with transparency := max 0 (1 - (t - p.fadeStartTime) / fadeOutDuration) } := by
        unfold updatePixelCore
        rw [stepStop_of_not_flickering i t p hf', stepToggle_of_not_flickering t p hf']
        unfold stepFade
        rw [if_pos ⟨hsf, hf'⟩]
      rw [hq]
      exact core_stable_of_faded i t _ hf' hsf rfl
    · have hsf' : p.hasStartedFading = false := Bool.eq_false_iff.mpr hsf
      have hq : updatePixelCore i t p = p := by
        unfold updatePixelCore
        rw [stepStop_of_not_flickering i t p hf', stepToggle_of_not_flickering t p hf',
          stepFade_of_not_fading t p hsf']
      rw [hq, hq]

lemma setPixel_setPixel (g : Grid) (x y : ℕ) (p q : Pixel) :
    setPixel (setPixel g x y p) x y q = setPixel g x y q := by
  funext j i
  unfold setPixel
  by_cases h : j = y ∧ i = x
  · rw [if_pos h, if_pos h]
  · rw [if_neg h, if_neg h, if_neg h]

/-- Claim C10: at a fixed elapsed time, a second immediate `getPixelState`
call on the same cell returns the same view and leaves the grid exactly as
after the first call (the toggle cannot fire twice since `flickerRate > 0`). -/
theorem flicker_C10 (c : Config) (g : Grid) (x y : ℕ) (t : ℝ)
    (hx : x < c.width) (hy : y < c.height) (hr : 0 < (g y x).flickerRate) :
    (getPixelState c (getPixelState c g x y t).2 x y t).1 = (getPixelState c g x y t).1 ∧
    (getPixelState c (getPixelState c g x y t).2 x y t).2 = (getPixelState c g x y t).2 := by
  have hinfl : getNeighborInfluence c (setPixel g x y (updatePixel c g x y t)) x y =
      getNeighborInfluence c g x y :=
    influence_setPixel_center c g x y (updatePixel c g x y t)
  have hp2 : updatePixel c (getPixelState c g x y t).2 x y t = updatePixel c g x y t := by
    show updatePixelCore
        (getNeighborInfluence c (setPixel g x y (updatePixel c g x y t)) x y) t
        (setPixel g x y (updatePixel c g x y t) y x) = _
    rw [hinfl, setPixel_center]
    show updatePixelCore (getNeighborInfluence c g x y) t
        (updatePixelCore (getNeighborInfluence c g x y) t (g y x)) = _
    exact core_idem (getNeighborInfluence c g x y) t (g y x) hr
  constructor
  · show (⟨(updatePixel c (getPixelState c g x y t).2 x y t).currentColor,
        (updatePixel c (getPixelState c g x y t).2 x y t).transparency,
        (updatePixel c (getPixelState c g x y t).2 x y t).isFlickering ||
          decide ((updatePixel c (getPixelState c g x y t).2 x y t).transparency > 0)⟩ :
        PixelView) = (getPixelState c g x y t).1
    rw [hp2]
    rfl
  · show setPixel (getPixelState c g x y t).2 x y
        (updatePixel c (getPixelState c g x y t).2 x y t) = (getPixelState c g x y t).2
    rw [hp2]
    show setPixel (setPixel g x y (updatePixel c g x y t)) x y (updatePixel c g x y t) =
      (getPixelState c g x y t).2
    rw [setPixel_setPixel]
    rfl

/-- Witness for C10 on the concrete grid `gridC4` at cell `(50, 50)`. -/
theorem flicker_C10_witness :
    50 < c100.width ∧ 50 < c100.height ∧ 0 < (gridC4 50 50).flickerRate ∧
    ((getPixelState c100 (getPixelState c100 gridC4 50 50 7).2 50 50 7).1 =
        (getPixelState c100 gridC4 50 50 7).1 ∧
      (getPixelState c100 (getPixelState c100 gridC4 50 50 7).2 50 50 7).2 =
        (getPixelState c100 gridC4 50 50 7).2) := by
  have hr : 0 < (gridC4 50 50).flickerRate := by
    rw [gridC4_center]
    show (0:ℝ) < 100
    norm_num
  exact ⟨by decide, by decide, hr, flicker_C10 c100 gridC4 50 50 7 (by decide) (by decide) hr⟩

lemma core_eq_stop (i t : ℝ) (p : Pixel) (hf : p.isFlickering = true)
    (hge : jsGe t (adjustedStopTime p.stopTime i)) :
    updatePixelCore i t p =
      { p with
          isFlickering := false, hasStartedFading := true, fadeStartTime := t,
          transparency := max 0 (1 - (t - t) / fadeOutDuration) } := by
  have h1 : stepStop i t p =
      { p with isFlickering := false, hasStartedFading := true, fadeStartTime := t } := by
    unfold stepStop; rw [if_pos ⟨hf, hge⟩]
  unfold updatePixelCore
  rw [h1, stepToggle_of_not_flickering t _ rfl]
  unfold stepFade
  rw [if_pos ⟨rfl, rfl⟩]

lemma core_eq_fade (i t : ℝ) (p : Pixel) (hf : p.isFlickering = false)
    (hsf : p.hasStartedFading = true) :
    updatePixelCore i t p =
      { p with transparency := max 0 (1 - (t - p.fadeStartTime) / fadeOutDuration) } := by
  unfold updatePixelCore
  rw [stepStop_of_not_flickering i t p hf, stepToggle_of_not_flickering t p hf]
  unfold stepFade
  rw [if_pos ⟨hsf, hf⟩]

lemma core_eq_toggle (i t : ℝ) (p : Pixel) (hf : p.isFlickering = true)
    (hge : ¬ jsGe t (adjustedStopTime p.stopTime i))
    (htog : p.flickerRate ≤ t - p.lastFlickerTime) :
    updatePixelCore i t p =
      { p with currentColor := 1 - p.currentColor, lastFlickerTime := t } := by
  have h1 : stepStop i t p = p := by
    unfold stepStop; rw [if_neg]; rintro ⟨-, h⟩; exact hge h
  have h2 : stepToggle t p =
      { p with currentColor := 1 - p.currentColor, lastFlickerTime := t } := by
    unfold stepToggle; rw [if_pos ⟨hf, htog⟩]
  unfold updatePixelCore
  rw [h1, h2]
  exact stepFade_of_flickering t _ hf

lemma core_flicker_false (i t : ℝ) (p : Pixel) (h : p.isFlickering = false) :
    (updatePixelCore i t p).isFlickering = false := by
  unfold updatePixelCore
  rw [stepFade_isFlickering, stepToggle_isFlickering, stepStop_of_not_flickering i t p h, h]

lemma runPixel_flicker_false (L : List (ℝ × ℝ)) :
    ∀ p : Pixel, p.isFlickering = false → (runPixel p L).isFlickering = false := by
  induction L with
  | nil => exact fun p h => h
  | cons a L ih =>
    intro p h
    exact ih (updatePixelCore a.1 a.2 p) (core_flicker_false a.1 a.2 p h)

/-- The flag pair `hasStartedFading = !isFlickering` is maintained by every
per-pixel update: the two flags flip together in the stop transition and are
touched nowhere else. -/
lemma core_hsf_eq (i t : ℝ) (p : Pixel) (h : p.hasStartedFading = !p.isFlickering) :
    (updatePixelCore i t p).hasStartedFading = !(updatePixelCore i t p).isFlickering := by
  by_cases hf : p.isFlickering = true
  · by_cases hge : jsGe t (adjustedStopTime p.stopTime i)
    · rw [core_eq_stop i t p hf hge]
      rfl
    · by_cases htog : p.flickerRate ≤ t - p.lastFlickerTime
      · rw [core_eq_toggle i t p hf hge htog]
        exact h
      · rw [core_stable_of_flickering i t p hf hge htog]
        exact h
  · have hf' : p.isFlickering = false := Bool.eq_false_iff.mpr hf
    have hsf : p.hasStartedFading = true := by rw [h, hf']; rfl
    rw [core_eq_fade i t p hf' hsf]
    exact h

lemma runPixel_hsf_eq (M : List (ℝ × ℝ)) :
    ∀ p : Pixel, p.hasStartedFading = !p.isFlickering →
      (runPixel p M).hasStartedFading = !(runPixel p M).isFlickering := by
  induction M with
  | nil => exact fun p h => h
  | cons a M ih =>
    intro p h
    exact ih (updatePixelCore a.1 a.2 p) (core_hsf_eq a.1 a.2 p h)

/-- The per-cell state invariant after the last update at time `t0`: the two
flags agree as above and, once fading, the transparency is exactly the fade
value computed from a `fadeStartTime` that is not in the future. -/
def PixInv (t0 : ℝ) (p : Pixel) : Prop :=
  p.hasStartedFading = !p.isFlickering ∧
  (p.hasStartedFading = true → p.fadeStartTime ≤ t0 ∧
    p.transparency = max 0 (1 - (t0 - p.fadeStartTime) / fadeOutDuration))

lemma pixInv_step (i t t0 : ℝ) (p : Pixel) (h : PixInv t0 p) (ht : t0 ≤ t) :
    PixInv t (updatePixelCore i t p) := by
  by_cases hf : p.isFlickering = true
  · have hfalse : p.hasStartedFading = false := by rw [h.1, hf]; rfl
    by_cases hge : jsGe t (adjustedStopTime p.stopTime i)
    · rw [core_eq_stop i t p hf hge]
      exact ⟨rfl, fun _ => ⟨le_refl t, rfl⟩⟩
    · by_cases htog : p.flickerRate ≤ t - p.lastFlickerTime
      · rw [core_eq_toggle i t p hf hge htog]
        refine ⟨h.1, fun hh => ?_⟩
        have hh' : p.hasStartedFading = true := hh
        rw [hfalse] at hh'
        exact absurd hh' Bool.false_ne_true
      · rw [core_stable_of_flickering i t p hf hge htog]
        refine ⟨h.1, fun hh => ?_⟩
        rw [hfalse] at hh
        exact absurd hh Bool.false_ne_true
  · have hf' : p.isFlickering = false := Bool.eq_false_iff.mpr hf
    have hsf : p.hasStartedFading = true := by rw [h.1, hf']; rfl
    obtain ⟨hfs, -⟩ := h.2 hsf
    rw [core_eq_fade i t p hf' hsf]
    exact ⟨h.1, fun _ => ⟨le_trans hfs ht, rfl⟩⟩

lemma runPixel_inv (L : List (ℝ × ℝ)) :
    ∀ (p : Pixel) (t0 : ℝ), PixInv t0 p →
      List.Chain' (· ≤ ·) (t0 :: L.map Prod.snd) →
      ∃ t1, t1 ∈ t0 :: L.map Prod.snd ∧ PixInv t1 (runPixel p L) := by
  induction L with
  | nil => exact fun p t0 h _ => ⟨t0, List.mem_cons_self _ _, h⟩
  | cons a L ih =>
    intro p t0 h hch
    have h01 : t0 ≤ a.2 := (List.chain'_cons.mp hch).1
    have hch' : List.Chain' (· ≤ ·) (a.2 :: L.map Prod.snd) := (List.chain'_cons.mp hch).2
    obtain ⟨t1, ht1, hinv⟩ :=
      ih (updatePixelCore a.1 a.2 p) a.2 (pixInv_step a.1 a.2 t0 p h h01) hch'
    exact ⟨t1, List.mem_cons_of_mem _ ht1, hinv⟩

lemma runPixel_fade_mono (L : List (ℝ × ℝ)) :
    ∀ (p : Pixel) (t1 : ℝ), PixInv t1 p → p.hasStartedFading = true →
      List.Chain' (· ≤ ·) (t1 :: L.map Prod.snd) →
      (runPixel p L).transparency ≤ p.transparency := by
  induction L with
  | nil => exact fun p _ _ _ _ => le_refl _
  | cons a L ih =>
    intro p t1 hinv hsf hch
    have hf : p.isFlickering = false := by
      have h1 := hinv.1
      rw [hsf] at h1
      cases hflick : p.isFlickering
      · rfl
      · rw [hflick] at h1; exact absurd h1.symm (by simp)
    have h01 : t1 ≤ a.2 := (List.chain'_cons.mp hch).1
    have hch' : List.Chain' (· ≤ ·) (a.2 :: L.map Prod.snd) := (List.chain'_cons.mp hch).2
    have hq : updatePixelCore a.1 a.2 p =
        { p with transparency := max 0 (1 - (a.2 - p.fadeStartTime) / fadeOutDuration) } :=
      core_eq_fade a.1 a.2 p hf hsf
    have hinv' : PixInv a.2 (updatePixelCore a.1 a.2 p) := pixInv_step a.1 a.2 t1 p hinv h01
    have hsf' : (updatePixelCore a.1 a.2 p).hasStartedFading = true := by rw [hq]; exact hsf
    have hrec := ih (updatePixelCore a.1 a.2 p) a.2 hinv' hsf' hch'
    refine le_trans hrec ?_
    rw [hq]
    obtain ⟨hfs, htr⟩ := hinv.2 hsf
    rw [htr]
    apply max_le_max (le_refl 0)
    unfold fadeOutDuration
    have hdiv : (t1 - p.fadeStartTime) / 2000 ≤ (a.2 - p.fadeStartTime) / 2000 := by
      linarith
    linarith

/-- Claim C7: over any query sequence on a fixed cell with non-decreasing
elapsed times (each entry supplies the neighbor influence read from the
surrounding grid and the time): once `isFlickering` is false it stays false
through any further queries; `hasStartedFading` always implies
`!isFlickering`; and once fading has started the transparency is
non-increasing along the sequence. -/
theorem flicker_C7 (c : Config) (x y : ℕ) (r : RandDraw) (L Lk : List (ℝ × ℝ))
    (hs : List.Sorted (· ≤ ·) (0 :: (L ++ Lk).map Prod.snd)) :
    ((runPixel (initPixel c x y r) L).isFlickering = false →
      (runPixel (initPixel c x y r) (L ++ Lk)).isFlickering = false) ∧
    (∀ M : List (ℝ × ℝ), (runPixel (initPixel c x y r) M).hasStartedFading = true →
      (runPixel (initPixel c x y r) M).isFlickering = false) ∧
    ((runPixel (initPixel c x y r) L).hasStartedFading = true →
      (runPixel (initPixel c x y r) (L ++ Lk)).transparency ≤
        (runPixel (initPixel c x y r) L).transparency) := by
  have happ : runPixel (initPixel c x y r) (L ++ Lk) =
      runPixel (runPixel (initPixel c x y r) L) Lk := by
    unfold runPixel
    exact List.foldl_append _ _ _ _
  refine ⟨?_, ?_, ?_⟩
  · intro h
    rw [happ]
    exact runPixel_flicker_false Lk _ h
  · intro M hM
    have hinit : (initPixel c x y r).hasStartedFading = !(initPixel c x y r).isFlickering := rfl
    have h2 := runPixel_hsf_eq M (initPixel c x y r) hinit
    rw [hM] at h2
    cases hfl : (runPixel (initPixel c x y r) M).isFlickering
    · rfl
    · rw [hfl] at h2
      exact absurd h2 (by simp)
  · intro hfad
    rw [List.map_append] at hs
    have hs' : List.Pairwise (· ≤ ·)
        ((0 :: L.map Prod.snd) ++ Lk.map Prod.snd) := hs
    rw [List.pairwise_append] at hs'
    obtain ⟨hsL, hsR, hcross⟩ := hs'
    have hch0 : List.Chain' (· ≤ ·) (0 :: L.map Prod.snd) := hsL.chain'
    have hinv0 : PixInv 0 (initPixel c x y r) :=
      ⟨rfl, fun hh => absurd hh Bool.false_ne_true⟩
    obtain ⟨t1, ht1, hinvL⟩ := runPixel_inv L (initPixel c x y r) 0 hinv0 hch0
    have hch1 : List.Chain' (· ≤ ·) (t1 :: Lk.map Prod.snd) :=
      List.chain'_cons'.mpr
        ⟨fun b hb => hcross t1 ht1 b (List.mem_of_mem_head? hb), hsR.chain'⟩
    rw [happ]
    exact runPixel_fade_mono Lk (runPixel (initPixel c x y r) L) t1 hinvL hfad hch1

/-- Witness for C7 at a concrete cell and concrete sorted query times. -/
theorem flicker_C7_witness :
    List.Sorted (· ≤ ·)
      (0 :: (([((0 : ℝ), (0 : ℝ))] ++ [((0 : ℝ), (100 : ℝ))]).map Prod.snd)) ∧
    (((runPixel (initPixel c100 0 0 ⟨0.5, 0.5, 0.5⟩) [((0 : ℝ), (0 : ℝ))]).isFlickering = false →
      (runPixel (initPixel c100 0 0 ⟨0.5, 0.5, 0.5⟩)
        ([((0 : ℝ), (0 : ℝ))] ++ [((0 : ℝ), (100 : ℝ))])).isFlickering = false) ∧
    (∀ M : List (ℝ × ℝ),
      (runPixel (initPixel c100 0 0 ⟨0.5, 0.5, 0.5⟩) M).hasStartedFading = true →
      (runPixel (initPixel c100 0 0 ⟨0.5, 0.5, 0.5⟩) M).isFlickering = false) ∧
    ((runPixel (initPixel c100 0 0 ⟨0.5, 0.5, 0.5⟩) [((0 : ℝ), (0 : ℝ))]).hasStartedFading = true →
      (runPixel (initPixel c100 0 0 ⟨0.5, 0.5, 0.5⟩)
          ([((0 : ℝ), (0 : ℝ))] ++ [((0 : ℝ), (100 : ℝ))])).transparency ≤
        (runPixel (initPixel c100 0 0 ⟨0.5, 0.5, 0.5⟩) [((0 : ℝ), (0 : ℝ))]).transparency)) := by
  have hs : List.Sorted (· ≤ ·)
      (0 :: (([((0 : ℝ), (0 : ℝ))] ++ [((0 : ℝ), (100 : ℝ))]).map Prod.snd)) := by
    simp [List.sorted_cons]
  exact ⟨hs, flicker_C7 c100 0 0 ⟨0.5, 0.5, 0.5⟩ _ _ hs⟩

/-- `sin x < 0` whenever `x` lies strictly between `(2n-1)π` and `2nπ`. -/
lemma sin_neg_on_lower_arc (x : ℝ) (n : ℕ)
    (h1 : (2 * n - 1 : ℝ) * Real.pi < x) (h2 : x < (2 * n : ℝ) * Real.pi) :
    Real.sin x < 0 := by
  have hper : Real.sin (x - n * (2 * Real.pi)) = Real.sin x :=
    Real.sin_periodic.sub_nat_mul_eq n
  rw [← hper]
  apply Real.sin_neg_of_neg_of_neg_pi_lt
  · nlinarith [h2]
  · nlinarith [h1]

lemma pi_lo : (3.141592 : ℝ) < Real.pi := Real.pi_gt_d6

lemma pi_hi : Real.pi < (3.15 : ℝ) := Real.pi_lt_d2

lemma sin_425_neg : Real.sin 4.25 < 0 := by
  apply sin_neg_on_lower_arc 4.25 1
  · push_cast
    nlinarith [pi_hi]
  · push_cast
    nlinarith [pi_lo]

lemma sin_102_neg : Real.sin 10.2 < 0 := by
  apply sin_neg_on_lower_arc 10.2 2
  · push_cast
    nlinarith [pi_hi]
  · push_cast
    nlinarith [pi_lo]

lemma sin_1785_neg : Real.sin 17.85 < 0 := by
  apply sin_neg_on_lower_arc 17.85 3
  · push_cast
    nlinarith [pi_hi]
  · push_cast
    nlinarith [pi_lo]

lemma cos_small_pos (y : ℝ) (h0 : 0 ≤ y) (h1 : y ≤ 1) : 0 < Real.cos y :=
  Real.cos_pos_of_le_one (by rw [abs_of_nonneg h0]; exact h1)

/-- The noise field is strictly negative at `(8.5, 0.2)`: all three sine
factors are negative there while all three cosine factors are positive. -/
lemma perlinNoise_85_02_neg : perlinNoise 8.5 0.2 < 0 := by
  unfold perlinNoise
  have e1 : (8.5 : ℝ) * 0.5 = 4.25 := by norm_num
  have e2 : (8.5 : ℝ) * 1.2 = 10.2 := by norm_num
  have e3 : (8.5 : ℝ) * 2.1 = 17.85 := by norm_num
  have f1 : (0.2 : ℝ) * 0.3 = 0.06 := by norm_num
  have f2 : (0.2 : ℝ) * 0.8 = 0.16 := by norm_num
  have f3 : (0.2 : ℝ) * 1.7 = 0.34 := by norm_num
  rw [e1, e2, e3, f1, f2, f3]
  have s1 := sin_425_neg
  have s2 := sin_102_neg
  have s3 := sin_1785_neg
  have c1 : 0 < Real.cos 0.06 := cos_small_pos 0.06 (by norm_num) (by norm_num)
  have c2 : 0 < Real.cos 0.16 := cos_small_pos 0.16 (by norm_num) (by norm_num)
  have c3 : 0 < Real.cos 0.34 := cos_small_pos 0.34 (by norm_num) (by norm_num)
  have t1 : Real.sin 4.25 * Real.cos 0.06 * 0.5 < 0 := by nlinarith
  have t2 : Real.sin 10.2 * Real.cos 0.16 * 0.3 < 0 := by nlinarith
  have t3 : Real.sin 17.85 * Real.cos 0.34 * 0.2 < 0 := by nlinarith
  linarith

lemma baseDistance_c436_center : baseDistance c436 425 10 = 0 := by
  unfold baseDistance
  have h1 : ((425 : ℕ) : ℝ) - c436.centerX = 0 := by
    norm_num [c436]
  have h2 : ((10 : ℕ) : ℝ) - c436.centerY = 0 := by
    norm_num [c436]
  rw [h1, h2]
  norm_num [Real.sqrt_zero]

lemma irregularDistance_c436_neg : irregularDistance c436 425 10 < 0 := by
  unfold irregularDistance irregularityFactor
  rw [baseDistance_c436_center]
  have h1 : ((425 : ℕ) : ℝ) * 0.02 = 8.5 := by norm_num
  have h2 : ((10 : ℕ) : ℝ) * 0.02 = 0.2 := by norm_num
  rw [h1, h2]
  have := perlinNoise_85_02_neg
  nlinarith

lemma maxDistance_c436_pos : 0 < maxDistance c436 := by
  unfold maxDistance
  apply div_pos _ (by norm_num)
  apply Real.sqrt_pos.mpr
  have : (0 : ℝ) < ((c436.width : ℝ)) ^ 2 := by
    norm_num [c436]
  nlinarith [sq_nonneg ((c436.height : ℝ))]

/-- At the interior cell `(425, 10)` of the 436×21 grid centered there, the
"normalized" distance is negative: the base distance is 0 and the noise term
is negative, and the code only clamps from above with `Math.min(·, 1)`. -/
lemma normalizedDistance_c436_neg : normalizedDistance c436 425 10 < 0 := by
  unfold normalizedDistance
  have hdiv : irregularDistance c436 425 10 / maxDistance c436 < 0 :=
    div_neg_of_neg_of_pos irregularDistance_c436_neg maxDistance_c436_pos
  exact lt_of_le_of_lt (min_le_left _ _) hdiv

lemma mathPow25_c436_none : mathPow25 (normalizedDistance c436 425 10) = none := by
  unfold mathPow25
  rw [if_pos normalizedDistance_c436_neg]

lemma c436_interior : ¬ (isEdgePixel c436 425 10 = true) := by decide

/-- Claim C2 (code bug): the code does not clamp the normalized distance to
`[0, 1]` — at the interior cell `(425, 10)` of `FlickerDistribution(436, 21,
425, 10)` it is negative, and `Math.pow` receives a negative base (yielding
`NaN`), contradicting the claim and the code's own comment
"Normalize distance to 0-1 range". -/
theorem flicker_C2 :
    normalizedDistance c436 425 10 < 0 ∧
    ¬ (isEdgePixel c436 425 10 = true) ∧
    mathPow25 (normalizedDistance c436 425 10) = none :=
  ⟨normalizedDistance_c436_neg, c436_interior, mathPow25_c436_none⟩

/-- Claim C3 (code bug): for the interior cell `(425, 10)` of
`FlickerDistribution(436, 21, 425, 10)`, `calculateStopTime` returns `NaN`
for every draw of the random variation — not a number in
`[0, totalDurationMs]` as the claim (and the code's comment "Ensure time is
within valid bounds") requires. -/
theorem flicker_C3 (rand : ℝ) :
    calculateStopTime c436 425 10 rand = JsTime.nan := by
  unfold calculateStopTime
  rw [if_neg c436_interior, mathPow25_c436_none]

/-- A finite `calculateStopTime` value always lies in `[0, totalDuration]`
(the final `Math.max(0, Math.min(totalDuration, ...))`). -/
lemma calculateStopTime_fin_bounds (c : Config) (x y : ℕ) (rand s : ℝ)
    (h : calculateStopTime c x y rand = .fin s) : 0 ≤ s ∧ s ≤ totalDuration := by
  unfold calculateStopTime at h
  by_cases hedge : isEdgePixel c x y = true
  · rw [if_pos hedge] at h
    exact absurd h (fun hh => JsTime.noConfusion hh)
  · rw [if_neg hedge] at h
    rcases hm : mathPow25 (normalizedDistance c x y) with - | e
    · rw [hm] at h
      exact absurd h (fun hh => JsTime.noConfusion hh)
    · rw [hm] at h
      have hs : clampStopTime e rand = s := by
        injection h
      rw [← hs]
      unfold clampStopTime
      constructor
      · exact le_max_left _ _
      · apply max_le
        · unfold totalDuration; norm_num
        · exact min_le_left _ _

/-- On a freshly initialized grid every cell flickers, so the neighbor
influence is 0 everywhere. -/
lemma influence_init_zero (c : Config) (R : ℕ → ℕ → RandDraw) (x y : ℕ) :
    getNeighborInfluence c (initializePixels c R) x y = 0 := by
  have hstopped : stoppedNeighbors c (initializePixels c R) x y = 0 := by
    unfold stoppedNeighbors
    rw [List.countP_eq_zero]
    intro q _
    have : (initializePixels c R q.2.toNat q.1.toNat).isFlickering = true := rfl
    simp [this]
  unfold getNeighborInfluence
  rw [hstopped]
  split
  · simp
  · rfl

/-- A flickering, not-yet-fading pixel that does not reach its stop threshold
keeps flickering with unchanged transparency, flags and stop time
(whether or not the color toggles). -/
lemma core_no_stop_fields (i t : ℝ) (p : Pixel) (hf : p.isFlickering = true)
    (hge : ¬ jsGe t (adjustedStopTime p.stopTime i)) (hsf : p.hasStartedFading = false) :
    (updatePixelCore i t p).isFlickering = true ∧
    (updatePixelCore i t p).transparency = p.transparency ∧
    (updatePixelCore i t p).hasStartedFading = false ∧
    (updatePixelCore i t p).stopTime = p.stopTime := by
  by_cases htog : p.flickerRate ≤ t - p.lastFlickerTime
  · rw [core_eq_toggle i t p hf hge htog]
    exact ⟨hf, rfl, hsf, rfl⟩
  · rw [core_stable_of_flickering i t p hf hge htog]
    exact ⟨hf, rfl, hsf, rfl⟩

lemma sin_half_lb : (0.475 : ℝ) ≤ Real.sin 0.5 := by
  have habs : |(0.5 : ℝ)| = 0.5 := abs_of_nonneg (by norm_num)
  have hb := Real.sin_bound (show |(0.5 : ℝ)| ≤ 1 by rw [habs]; norm_num)
  have h := neg_le_of_abs_le hb
  rw [habs] at h
  norm_num at h
  linarith

lemma cos_03_lb : (0.95 : ℝ) ≤ Real.cos 0.3 := by
  have habs : |(0.3 : ℝ)| = 0.3 := abs_of_nonneg (by norm_num)
  have hb := Real.cos_bound (show |(0.3 : ℝ)| ≤ 1 by rw [habs]; norm_num)
  have h := neg_le_of_abs_le hb
  rw [habs] at h
  norm_num at h
  linarith

/-- The noise field is strictly positive at `(1, 1)` (the scaled coordinates
of the center cell `(50, 50)`): the first summand exceeds `0.225` and the
worst case of the third summand is `-0.2`. -/
lemma perlinNoise_1_1_pos : 0 < perlinNoise 1 1 := by
  unfold perlinNoise
  have e1 : (1 : ℝ) * 0.5 = 0.5 := by norm_num
  have e2 : (1 : ℝ) * 1.2 = 1.2 := by norm_num
  have e3 : (1 : ℝ) * 2.1 = 2.1 := by norm_num
  have f1 : (1 : ℝ) * 0.3 = 0.3 := by norm_num
  have f2 : (1 : ℝ) * 0.8 = 0.8 := by norm_num
  have f3 : (1 : ℝ) * 1.7 = 1.7 := by norm_num
  rw [e1, e2, e3, f1, f2, f3]
  have hs05 : (0 : ℝ) < Real.sin 0.5 := lt_of_lt_of_le (by norm_num) sin_half_lb
  have h1 : (0.45125 : ℝ) ≤ Real.sin 0.5 * Real.cos 0.3 := by
    have := mul_le_mul sin_half_lb cos_03_lb (by norm_num) (le_of_lt hs05)
    linarith
  have h2 : 0 < Real.sin 1.2 * Real.cos 0.8 := by
    apply mul_pos
    · exact Real.sin_pos_of_pos_of_lt_pi (by norm_num) (by nlinarith [pi_lo])
    · exact cos_small_pos 0.8 (by norm_num) (by norm_num)
  have h3 : (-1 : ℝ) ≤ Real.sin 2.1 * Real.cos 1.7 := by
    nlinarith [Real.neg_one_le_sin 2.1, Real.sin_le_one 2.1,
      Real.neg_one_le_cos 1.7, Real.cos_le_one 1.7]
  nlinarith

/-- The spec's three-query scenario on the 100×100 grid: cell `(50, 50)`
queried in sequence at 0, 10000 and 12000 ms, for any random initialization
whose scheduled stop time `s` for that cell is finite and positive.  The
cell still flickers at 0; at 10000 it has stopped but the fade has only just
begun, so the reported opacity is exactly 1 (not strictly below 1); at 12000
the fade is complete. -/
lemma flickerScenario (R : ℕ → ℕ → RandDraw) (s : ℝ)
    (hs : calculateStopTime c100 50 50 (R 50 50).jitter = JsTime.fin s)
    (hs0 : 0 < s) :
    ((getPixelState c100 (initializePixels c100 R) 50 50 0).2 50 50).isFlickering = true ∧
    (getPixelState c100 (initializePixels c100 R) 50 50 0).1.transparency = 1 ∧
    ((getPixelState c100 (getPixelState c100 (initializePixels c100 R) 50 50 0).2
        50 50 10000).2 50 50).isFlickering = false ∧
    (getPixelState c100 (getPixelState c100 (initializePixels c100 R) 50 50 0).2
        50 50 10000).1.transparency = 1 ∧
    (getPixelState c100 (getPixelState c100 (initializePixels c100 R) 50 50 0).2
        50 50 10000).1.isActive = true ∧
    (getPixelState c100 (getPixelState c100 (getPixelState c100 (initializePixels c100 R)
        50 50 0).2 50 50 10000).2 50 50 12000).1.transparency = 0 ∧
    (getPixelState c100 (getPixelState c100 (getPixelState c100 (initializePixels c100 R)
        50 50 0).2 50 50 10000).2 50 50 12000).1.isActive = false := by
  set G0 : Grid := initializePixels c100 R with hG0
  -- the initial pixel of cell (50, 50)
  have hp0st : (G0 50 50).stopTime = JsTime.fin s := hs
  have hp0f : (G0 50 50).isFlickering = true := rfl
  have hp0t : (G0 50 50).transparency = 1 := rfl
  have hp0sf : (G0 50 50).hasStartedFading = false := rfl
  have hin0 : getNeighborInfluence c100 G0 50 50 = 0 := influence_init_zero c100 R 50 50
  -- query 1 at t = 0: the stop condition fails because 0 < s
  have hnoge : ¬ jsGe 0 (adjustedStopTime (G0 50 50).stopTime
      (getNeighborInfluence c100 G0 50 50)) := by
    rw [hp0st, hin0]
    show ¬ (s - 0 * contagionStrength * 2000 ≤ 0)
    intro h
    linarith
  have hupd1 := core_no_stop_fields (getNeighborInfluence c100 G0 50 50) 0
    (G0 50 50) hp0f hnoge hp0sf
  have hupd1' : (updatePixel c100 G0 50 50 0).isFlickering = true ∧
      (updatePixel c100 G0 50 50 0).transparency = (G0 50 50).transparency ∧
      (updatePixel c100 G0 50 50 0).hasStartedFading = false ∧
      (updatePixel c100 G0 50 50 0).stopTime = (G0 50 50).stopTime := hupd1
  have hview1 : (getPixelState c100 G0 50 50 0).1.transparency = 1 := by
    show (updatePixel c100 G0 50 50 0).transparency = 1
    rw [hupd1'.2.1, hp0t]
  have hcell1 : (getPixelState c100 G0 50 50 0).2 50 50 = updatePixel c100 G0 50 50 0 :=
    setPixel_center G0 50 50 _
  have hflick1 : ((getPixelState c100 G0 50 50 0).2 50 50).isFlickering = true := by
    rw [hcell1]
    exact hupd1'.1
  -- query 2 at t = 10000: the stop condition now holds (s ≤ 10000)
  have hin1 : getNeighborInfluence c100 (getPixelState c100 G0 50 50 0).2 50 50 = 0 := by
    show getNeighborInfluence c100 (setPixel G0 50 50 (updatePixel c100 G0 50 50 0)) 50 50 = 0
    rw [influence_setPixel_center]
    exact hin0
  have hp1st : (updatePixel c100 G0 50 50 0).stopTime = JsTime.fin s := by
    rw [hupd1'.2.2.2]
    exact hp0st
  have hge2 : jsGe 10000 (adjustedStopTime (updatePixel c100 G0 50 50 0).stopTime
      (getNeighborInfluence c100 (getPixelState c100 G0 50 50 0).2 50 50)) := by
    rw [hp1st, hin1]
    show s - 0 * contagionStrength * 2000 ≤ 10000
    have hle := (calculateStopTime_fin_bounds c100 50 50 (R 50 50).jitter s hs).2
    unfold totalDuration at hle
    linarith
  have hp2 : updatePixel c100 (getPixelState c100 G0 50 50 0).2 50 50 10000 =
      { updatePixel c100 G0 50 50 0 with
          isFlickering := false, hasStartedFading := true, fadeStartTime := (10000 : ℝ),
          transparency := max 0 (1 - ((10000 : ℝ) - 10000) / fadeOutDuration) } := by
    show updatePixelCore
        (getNeighborInfluence c100 (getPixelState c100 G0 50 50 0).2 50 50) 10000
        ((getPixelState c100 G0 50 50 0).2 50 50) = _
    rw [hcell1]
    exact core_eq_stop _ 10000 _ hupd1'.1 hge2
  have htr2 : max 0 (1 - ((10000 : ℝ) - 10000) / fadeOutDuration) = 1 := by
    unfold fadeOutDuration
    norm_num
  have hview2tr : (getPixelState c100 (getPixelState c100 G0 50 50 0).2
      50 50 10000).1.transparency = 1 := by
    show (updatePixel c100 (getPixelState c100 G0 50 50 0).2 50 50 10000).transparency = 1
    rw [hp2]
    exact htr2
  have hview2act : (getPixelState c100 (getPixelState c100 G0 50 50 0).2
      50 50 10000).1.isActive = true := by
    show ((updatePixel c100 (getPixelState c100 G0 50 50 0).2 50 50 10000).isFlickering ||
      decide ((updatePixel c100 (getPixelState c100 G0 50 50 0).2 50 50 10000).transparency
        > 0)) = true
    rw [hp2]
    show (false || decide (max 0 (1 - ((10000 : ℝ) - 10000) / fadeOutDuration) > 0)) = true
    rw [Bool.false_or, htr2]
    exact decide_eq_true (by norm_num)
  have hcell2 : (getPixelState c100 (getPixelState c100 G0 50 50 0).2 50 50 10000).2 50 50 =
      updatePixel c100 (getPixelState c100 G0 50 50 0).2 50 50 10000 :=
    setPixel_center (getPixelState c100 G0 50 50 0).2 50 50
      (updatePixel c100 (getPixelState c100 G0 50 50 0).2 50 50 10000)
  have hflick2 : ((getPixelState c100 (getPixelState c100 G0 50 50 0).2
      50 50 10000).2 50 50).isFlickering = false := by
    rw [hcell2, hp2]
  -- query 3 at t = 12000: only the fade recomputation runs
  have hp3 : updatePixel c100 (getPixelState c100 (getPixelState c100 G0 50 50 0).2
      50 50 10000).2 50 50 12000 =
      { updatePixel c100 (getPixelState c100 G0 50 50 0).2 50 50 10000 with
          transparency := max 0 (1 - ((12000 : ℝ) -
            (updatePixel c100 (getPixelState c100 G0 50 50 0).2
              50 50 10000).fadeStartTime) / fadeOutDuration) } := by
    show updatePixelCore
        (getNeighborInfluence c100 (getPixelState c100 (getPixelState c100 G0 50 50 0).2
          50 50 10000).2 50 50) 12000
        ((getPixelState c100 (getPixelState c100 G0 50 50 0).2 50 50 10000).2 50 50) = _
    rw [hcell2]
    apply core_eq_fade
    · rw [hp2]
    · rw [hp2]
  have hfs2 : (updatePixel c100 (getPixelState c100 G0 50 50 0).2
      50 50 10000).fadeStartTime = 10000 := by
    rw [hp2]
  have htr3 : max 0 (1 - ((12000 : ℝ) -
      (updatePixel c100 (getPixelState c100 G0 50 50 0).2
        50 50 10000).fadeStartTime) / fadeOutDuration) = 0 := by
    rw [hfs2]
    unfold fadeOutDuration
    norm_num
  have hview3tr : (getPixelState c100 (getPixelState c100 (getPixelState c100 G0 50 50 0).2
      50 50 10000).2 50 50 12000).1.transparency = 0 := by
    show (updatePixel c100 (getPixelState c100 (getPixelState c100 G0 50 50 0).2
      50 50 10000).2 50 50 12000).transparency = 0
    rw [hp3]
    exact htr3
  have hview3act : (getPixelState c100 (getPixelState c100 (getPixelState c100 G0 50 50 0).2
      50 50 10000).2 50 50 12000).1.isActive = false := by
    show ((updatePixel c100 (getPixelState c100 (getPixelState c100 G0 50 50 0).2
        50 50 10000).2 50 50 12000).isFlickering ||
      decide ((updatePixel c100 (getPixelState c100 (getPixelState c100 G0 50 50 0).2
        50 50 10000).2 50 50 12000).transparency > 0)) = false
    rw [hp3]
    show ((updatePixel c100 (getPixelState c100 G0 50 50 0).2 50 50 10000).isFlickering ||
      decide (max 0 (1 - ((12000 : ℝ) -
        (updatePixel c100 (getPixelState c100 G0 50 50 0).2
          50 50 10000).fadeStartTime) / fadeOutDuration) > 0)) = false
    rw [htr3, hp2]
    show (false || decide ((0 : ℝ) > 0)) = false
    rw [Bool.false_or]
    exact decide_eq_false (by norm_num)
  exact ⟨hflick1, hview1, hflick2, hview2tr, hview2act, hview3tr, hview3act⟩

/-- The concrete random initialization used for the C6 scenario: every draw
is `1/2` (so the natural-variation jitter is exactly 0). -/
noncomputable def R6 : ℕ → ℕ → RandDraw := fun _ _ => ⟨1 / 2, 1 / 2, 1 / 2⟩

lemma c100_50_interior : ¬ (isEdgePixel c100 50 50 = true) := by decide

lemma baseDistance_c100_center : baseDistance c100 50 50 = 0 := by
  unfold baseDistance
  have h1 : ((50 : ℕ) : ℝ) - c100.centerX = 0 := by norm_num [c100]
  have h2 : ((50 : ℕ) : ℝ) - c100.centerY = 0 := by norm_num [c100]
  rw [h1, h2]
  norm_num [Real.sqrt_zero]

lemma irregularDistance_c100_pos : 0 < irregularDistance c100 50 50 := by
  unfold irregularDistance irregularityFactor
  rw [baseDistance_c100_center]
  have h1 : ((50 : ℕ) : ℝ) * 0.02 = 1 := by norm_num
  rw [h1]
  nlinarith [perlinNoise_1_1_pos]

lemma maxDistance_c100_pos : 0 < maxDistance c100 := by
  unfold maxDistance
  apply div_pos _ (by norm_num)
  apply Real.sqrt_pos.mpr
  have : (0 : ℝ) < ((c100.width : ℝ)) ^ 2 := by
    norm_num [c100]
  nlinarith [sq_nonneg ((c100.height : ℝ))]

lemma normalizedDistance_c100_pos : 0 < normalizedDistance c100 50 50 := by
  unfold normalizedDistance
  exact lt_min (div_pos irregularDistance_c100_pos maxDistance_c100_pos) one_pos

lemma mathPow25_c100 : mathPow25 (normalizedDistance c100 50 50) =
    some ((normalizedDistance c100 50 50) ^ (2.5 : ℝ)) := by
  unfold mathPow25
  rw [if_neg (not_lt.mpr (le_of_lt normalizedDistance_c100_pos))]

/-- The scheduled stop time of cell `(50, 50)` under the draw `R6`. -/
noncomputable def s6 : ℝ :=
  clampStopTime ((normalizedDistance c100 50 50) ^ (2.5 : ℝ)) (1 / 2)

lemma c6_stop : calculateStopTime c100 50 50 (R6 50 50).jitter = JsTime.fin s6 := by
  unfold calculateStopTime
  rw [if_neg c100_50_interior, mathPow25_c100]
  rfl

lemma s6_pos : 0 < s6 := by
  unfold s6 clampStopTime naturalVariation totalDuration
  have he : (0 : ℝ) < (normalizedDistance c100 50 50) ^ (2.5 : ℝ) :=
    Real.rpow_pos_of_pos normalizedDistance_c100_pos _
  have hz : ((1 : ℝ) / 2 - 0.5) = 0 := by norm_num
  rw [hz]
  have hinner : (0 : ℝ) <
      ((normalizedDistance c100 50 50) ^ (2.5 : ℝ) + 0 * 0.2) * 10000 := by
    nlinarith
  exact lt_of_lt_of_le (lt_min (by norm_num) hinner) (le_max_right 0 _)

/-- Claim C6 (amended): on the 100×100 grid centered at `(50, 50)`, for every
random initialization whose scheduled stop time `s` of cell `(50, 50)` is
finite and positive, querying that cell at 0, then 10000, then 12000 ms
gives: still flickering with opacity 1 at 0; stopped at 10000 with opacity
exactly 1 (the fade starts at this query, so the opacity is not strictly
between 0 and 1) and still active; opacity 0 and inactive at 12000. -/
theorem flicker_C6 (R : ℕ → ℕ → RandDraw) (s : ℝ)
    (hs : calculateStopTime c100 50 50 (R 50 50).jitter = JsTime.fin s)
    (hs0 : 0 < s) :
    ((getPixelState c100 (initializePixels c100 R) 50 50 0).2 50 50).isFlickering = true ∧
    (getPixelState c100 (initializePixels c100 R) 50 50 0).1.transparency = 1 ∧
    ((getPixelState c100 (getPixelState c100 (initializePixels c100 R) 50 50 0).2
        50 50 10000).2 50 50).isFlickering = false ∧
    (getPixelState c100 (getPixelState c100 (initializePixels c100 R) 50 50 0).2
        50 50 10000).1.transparency = 1 ∧
    (getPixelState c100 (getPixelState c100 (initializePixels c100 R) 50 50 0).2
        50 50 10000).1.isActive = true ∧
    (getPixelState c100 (getPixelState c100 (getPixelState c100 (initializePixels c100 R)
        50 50 0).2 50 50 10000).2 50 50 12000).1.transparency = 0 ∧
    (getPixelState c100 (getPixelState c100 (getPixelState c100 (initializePixels c100 R)
        50 50 0).2 50 50 10000).2 50 50 12000).1.isActive = false :=
  flickerScenario R s hs hs0

/-- Witness for the amended C6 at the concrete draw `R6`. -/
theorem flicker_C6_witness :
    (calculateStopTime c100 50 50 (R6 50 50).jitter = JsTime.fin s6 ∧ 0 < s6) ∧
    (((getPixelState c100 (initializePixels c100 R6) 50 50 0).2 50 50).isFlickering = true ∧
    (getPixelState c100 (initializePixels c100 R6) 50 50 0).1.transparency = 1 ∧
    ((getPixelState c100 (getPixelState c100 (initializePixels c100 R6) 50 50 0).2
        50 50 10000).2 50 50).isFlickering = false ∧
    (getPixelState c100 (getPixelState c100 (initializePixels c100 R6) 50 50 0).2
        50 50 10000).1.transparency = 1 ∧
    (getPixelState c100 (getPixelState c100 (initializePixels c100 R6) 50 50 0).2
        50 50 10000).1.isActive = true ∧
    (getPixelState c100 (getPixelState c100 (getPixelState c100 (initializePixels c100 R6)
        50 50 0).2 50 50 10000).2 50 50 12000).1.transparency = 0 ∧
    (getPixelState c100 (getPixelState c100 (getPixelState c100 (initializePixels c100 R6)
        50 50 0).2 50 50 10000).2 50 50 12000).1.isActive = false) :=
  ⟨⟨c6_stop, s6_pos⟩, flicker_C6 R6 s6 c6_stop s6_pos⟩

/-- Counterexample to C6 as stated: under the draw `R6` the second query (at
`elapsedMs = 10000`, following the query at 0) reports opacity exactly 1 —
the fade begins at that query — so the opacity is not strictly between 0
and 1 as the claim requires. -/
theorem flicker_C6_counterexample :
    (getPixelState c100 (getPixelState c100 (initializePixels c100 R6) 50 50 0).2
        50 50 10000).1.transparency = 1 ∧
    ¬(0 < (getPixelState c100 (getPixelState c100 (initializePixels c100 R6) 50 50 0).2
        50 50 10000).1.transparency ∧
      (getPixelState c100 (getPixelState c100 (initializePixels c100 R6) 50 50 0).2
        50 50 10000).1.transparency < 1) := by
  have h := flickerScenario R6 s6 c6_stop s6_pos
  refine ⟨h.2.2.2.1, ?_⟩
  rw [h.2.2.2.1]
  rintro ⟨-, hlt⟩
  exact lt_irrefl 1 hlt
